import Mathlib

/-!
# Verification of the filecoin-ffi C boundary layer (src/src/api.rs)

A shallow embedding of the FFI wrapper around the filecoin proof library.
Bytes are modelled as `Nat`, foreign `(pointer, length)` buffers as `List Nat`
(the bytes the pointer designates), C strings as `Option String` (`none` is the
null pointer), and the underlying proof library (`filecoin_proofs`, out of
scope for this repository) as an abstract record of functions `ProofsApi`
supplied as a parameter.  Library errors are modelled as the `String` their
`format!` rendering produces, which is the only way the wrapper observes them.

The wrapper's helper module (`crate::helpers`) and response-struct module
(`crate::responses`) are part of the repository but their sources are not
available here; those definitions are modelled from the specification and are
marked as such.  Logging (`info!(FCPFFI_LOG, ...)`) is modelled by returning,
next to the response, the list of log messages the call emits.
-/

namespace FilecoinFFI

/-- The fixed serialized size of a single partition's proof is a constant of
the proof library and is not visible in the wrapper source; all definitions
take it as an explicit parameter `pLen`. -/
abbrev Bytes := List Nat

/-- Splits a byte list into consecutive chunks of `chunk` bytes, structurally
recursing on a fuel argument (the list length suffices as fuel whenever
`chunk > 0`).  Returns `[]` once the buffer is exhausted; a zero chunk size
also yields `[]` rather than looping. -/
def intoProofVecsGo (chunk : Nat) : Nat → Bytes → List Bytes
  | _, [] => []
  | 0, _ => []
  | Nat.succ fuel, bs => bs.take chunk :: intoProofVecsGo chunk fuel (bs.drop chunk)

/-- Modelled from the spec: the raw-buffer decoder's chunking step, which
"copies exactly" `chunk` "bytes per unit" out of a flattened buffer
(spec section 4.1). -/
def intoProofVecs (chunk : Nat) (bs : Bytes) : List Bytes :=
  intoProofVecsGo chunk bs.length bs

/-- The decode-failure description produced when a seal proof buffer's length
is not an exact multiple of the per-partition proof size. -/
def porepDecodeErrMsg (n : Nat) : String :=
  "no PoRepProofPartitions mapping for a proof of length " ++ toString n

/-- The decode-failure description produced when a flattened PoSt proof
buffer's length is not an exact multiple of the expected per-proof size. -/
def postDecodeErrMsg (n p : Nat) : String :=
  "proofs array length " ++ toString n ++ " incompatible with partition count " ++ toString p

/-- Modelled from the spec: `helpers::try_into_porep_proof_bytes` (not under
src/).  Converts the caller's `(pointer, length)` pair "into owned ...
sequences of bytes" (spec section 2); the buffer itself is copied as-is, the
length validation for seal proofs being performed by the partition-count
derivation below (spec section 4.3 derives the partition count from the total
proof length). -/
def try_into_porep_proof_bytes (proof : Bytes) : Except String Bytes :=
  Except.ok proof

/-- Modelled from the spec: `helpers::porep_proof_partitions_try_from_bytes`
(not under src/).  Derives the PoRep partition count "from total proof length
(each partition's proof has a fixed size determined by configuration)" (spec
section 4.3); "decoding fails with a descriptive error if the byte length is
not an exact multiple of the per-partition size" (spec section 4.1). -/
def porep_proof_partitions_try_from_bytes (pLen : Nat) (bs : Bytes) : Except String Nat :=
  if bs.length % pLen = 0 then Except.ok (bs.length / pLen)
  else Except.error (porepDecodeErrMsg bs.length)

/-- Modelled from the spec: `helpers::try_into_post_proofs_bytes` (not under
src/).  "Decodes proof bytes using the caller-supplied proof_partitions"
(spec section 4.4): "the expected per-unit size is derived from a partition
count argument" (spec section 4.1), namely `proof_partitions` single-partition
proofs per unit, and decoding fails with a descriptive error unless the
flattened length is an exact multiple of that unit size. -/
def try_into_post_proofs_bytes (pLen proof_partitions : Nat) (flattened_proofs : Bytes) :
    Except String (List Bytes) :=
  let chunk := proof_partitions * pLen
  if flattened_proofs.length % chunk = 0 then
    Except.ok (intoProofVecs chunk flattened_proofs)
  else
    Except.error (postDecodeErrMsg flattened_proofs.length proof_partitions)

/-- Modelled from the spec: `helpers::into_commitments` (not under src/).
"For fixed-size commitment arrays, the decoder copies exactly 32 bytes per
unit" (spec section 4.1). -/
def into_commitments (flattened_comm_rs : Bytes) : List Bytes :=
  intoProofVecs 32 flattened_comm_rs

/-- Modelled from the spec: `helpers::into_safe_challenge_seed` (not under
src/).  "Copies the 32-byte challenge seed into a library-specific wrapper
type (no transformation beyond type wrapping)" (spec section 4.4). -/
def into_safe_challenge_seed (challenge_seed : Bytes) : Bytes :=
  challenge_seed

/-- The `api_types::PoRepConfig(SectorSize, PoRepProofPartitions)`
configuration value handed to the library for seal verification. -/
structure PoRepConfig where
  sector_size : Nat
  partitions : Nat
deriving DecidableEq

/-- The `api_types::PoStConfig(SectorSize, PoStProofPartitions)`
configuration value handed to the library for PoSt verification. -/
structure PoStConfig where
  sector_size : Nat
  partitions : Nat
deriving DecidableEq

/-- The dynamic output of the library's `verify_post`; the wrapper reads only
its `is_valid` field. -/
structure PoStOutput where
  is_valid : Bool
deriving DecidableEq

/-- The underlying proof library (`filecoin_proofs`), out of scope for this
repository, abstracted as the record of the four functions the wrapper calls.
Each returns `Except String α`: the `String` is the `format!` rendering of the
library error, the only view of it the wrapper uses. -/
structure ProofsApi where
  verify_seal : PoRepConfig → Bytes → Bytes → Bytes → Bytes → Bytes → Bytes →
    Except String Bool
  verify_post : PoStConfig → List Bytes → Bytes → List Bytes → List Nat →
    Except String PoStOutput
  verify_piece_inclusion_proof : Bytes → Bytes → Bytes → Nat → Nat →
    Except String Bool
  generate_piece_commitment : String → Nat → Except String (Bytes × Nat)

/-- Modelled from the spec: `responses::VerifySealResponse` (not under src/).
"Fields are a status code (0 = success, 1 = failure), a domain result payload
(validity boolean ...), and an optional error message (owned C-style string,
null when absent)"; "a default/empty response has a null error message and
status_code 0", and `is_valid` defaults to false (spec sections 3, 6, 4.3). -/
structure VerifySealResponse where
  status_code : Nat := 0
  error_msg : Option String := none
  is_valid : Bool := false
deriving DecidableEq

/-- Modelled from the spec: `responses::VerifyPoStResponse` (not under src/);
same shape and defaults as the seal response. -/
structure VerifyPoStResponse where
  status_code : Nat := 0
  error_msg : Option String := none
  is_valid : Bool := false
deriving DecidableEq

/-- Modelled from the spec: `responses::VerifyPieceInclusionProofResponse`
(not under src/); same shape and defaults as the seal response. -/
structure VerifyPieceInclusionProofResponse where
  status_code : Nat := 0
  error_msg : Option String := none
  is_valid : Bool := false
deriving DecidableEq

/-- Modelled from the spec: `responses::GeneratePieceCommitmentResponse` (not
under src/).  Carries "status_code, comm_p:32 bytes,
padded_and_aligned_piece_size:u64, error_msg" (spec section 6); the default
payload is the all-zero commitment and size 0. -/
structure GeneratePieceCommitmentResponse where
  status_code : Nat := 0
  error_msg : Option String := none
  comm_p : Bytes := List.replicate 32 0
  padded_and_aligned_piece_size : Nat := 0
deriving DecidableEq

/-- The `match result` block of `verify_seal` (src/src/api.rs lines 46-61):
starts from the default response and sets the fields the matched arm
assigns. -/
def sealResponseOf : Except String Bool → VerifySealResponse
  | Except.ok true => { status_code := 0, is_valid := true }
  | Except.ok false => { status_code := 0, is_valid := false }
  | Except.error err => { status_code := 1, error_msg := some err }

/-- The `match result` block of `verify_post` (src/src/api.rs lines 105-116). -/
def postResponseOf : Except String PoStOutput → VerifyPoStResponse
  | Except.ok dynamic => { status_code := 0, is_valid := dynamic.is_valid }
  | Except.error err => { status_code := 1, error_msg := some err }

/-- The `match result` block of `verify_piece_inclusion_proof`
(src/src/api.rs lines 143-158). -/
def pipResponseOf : Except String Bool → VerifyPieceInclusionProofResponse
  | Except.ok true => { status_code := 0, is_valid := true }
  | Except.ok false => { status_code := 0, is_valid := false }
  | Except.error err => { status_code := 1, error_msg := some err }

/-- The `match result` block of `generate_piece_commitment`
(src/src/api.rs lines 185-197). -/
def gpcResponseOf : Except String (Bytes × Nat) → GeneratePieceCommitmentResponse
  | Except.ok (comm_p, padded_and_aligned_piece_size) =>
      { status_code := 0, comm_p := comm_p,
        padded_and_aligned_piece_size := padded_and_aligned_piece_size }
  | Except.error err => { status_code := 1, error_msg := some err }

/-- Dispatcher `verify_seal` (src/src/api.rs lines 16-66).  Here `api` stands
for the linked proof library and `pLen` for its single-partition proof size;
the returned pair is (the response the returned pointer designates, the log
lines emitted). -/
def verify_seal (api : ProofsApi) (pLen : Nat) (sector_size : Nat)
    (comm_r comm_d comm_r_star prover_id sector_id : Bytes)
    (proof : Bytes) : VerifySealResponse × List String :=
  let porep_bytes := try_into_porep_proof_bytes proof
  let result := porep_bytes.bind fun bs =>
    (porep_proof_partitions_try_from_bytes pLen bs).bind fun ppp =>
      api.verify_seal (PoRepConfig.mk sector_size ppp)
        comm_r comm_d comm_r_star prover_id sector_id bs
  (sealResponseOf result, ["verify_seal: start", "verify_seal: finish"])

/-- Dispatcher `verify_post` (src/src/api.rs lines 71-121). -/
def verify_post (api : ProofsApi) (pLen : Nat) (sector_size : Nat)
    (proof_partitions : Nat) (flattened_comm_rs : Bytes) (challenge_seed : Bytes)
    (flattened_proofs : Bytes) (faults : List Nat) :
    VerifyPoStResponse × List String :=
  let post_bytes := try_into_post_proofs_bytes pLen proof_partitions flattened_proofs
  let result := post_bytes.bind fun bs =>
    api.verify_post (PoStConfig.mk sector_size proof_partitions)
      (into_commitments flattened_comm_rs)
      (into_safe_challenge_seed challenge_seed)
      bs faults
  (postResponseOf result, ["verify_post: start", "verify_post: finish"])

/-- Dispatcher `verify_piece_inclusion_proof` (src/src/api.rs lines 125-163).
The proof bytes are handed to the library exactly as read from the caller's
`(pointer, length)` pair, with no wrapper-level decoding. -/
def verify_piece_inclusion_proof (api : ProofsApi) (comm_d comm_p : Bytes)
    (piece_inclusion_proof : Bytes) (padded_and_aligned_piece_size : Nat)
    (sector_size : Nat) : VerifyPieceInclusionProofResponse × List String :=
  let result := api.verify_piece_inclusion_proof piece_inclusion_proof
    comm_d comm_p padded_and_aligned_piece_size sector_size
  (pipResponseOf result,
    ["verify_piece_inclusion_proof: start", "verify_piece_inclusion_proof: finish"])

/-- Dispatcher `generate_piece_commitment` (src/src/api.rs lines 174-200).
No log lines are emitted on this path. -/
def generate_piece_commitment (api : ProofsApi) (piece_path : String)
    (unpadded_piece_size : Nat) : GeneratePieceCommitmentResponse × List String :=
  let result := api.generate_piece_commitment piece_path unpadded_piece_size
  (gpcResponseOf result, [])

/-- Modelled from the spec: the proof library's sizing conversion
`UnpaddedBytesAmount::from(SectorSize)` (out of scope for this repository).
It "derives the maximum unpadded byte capacity for a given sector size"
(spec section 4.7), the sector reserving padding at the rate of the
underlying encoding: one padding byte out of every 128 sector bytes is not
user data. -/
def unpaddedBytesFromSectorSize (sector_size : Nat) : Nat :=
  sector_size - sector_size / 128

/-- Query `get_max_user_bytes_per_staged_sector` (src/src/api.rs lines
212-216). -/
def get_max_user_bytes_per_staged_sector (sector_size : Nat) : Nat :=
  unpaddedBytesFromSectorSize sector_size

/-! ## Unfolding equations for the dispatchers -/

theorem verify_seal_eq (api : ProofsApi) (pLen sector_size : Nat)
    (comm_r comm_d comm_r_star prover_id sector_id proof : Bytes) :
    verify_seal api pLen sector_size comm_r comm_d comm_r_star prover_id sector_id proof =
      (sealResponseOf ((porep_proof_partitions_try_from_bytes pLen proof).bind fun ppp =>
          api.verify_seal (PoRepConfig.mk sector_size ppp)
            comm_r comm_d comm_r_star prover_id sector_id proof),
       ["verify_seal: start", "verify_seal: finish"]) := rfl

theorem verify_post_eq (api : ProofsApi) (pLen sector_size proof_partitions : Nat)
    (flattened_comm_rs challenge_seed flattened_proofs : Bytes) (faults : List Nat) :
    verify_post api pLen sector_size proof_partitions flattened_comm_rs challenge_seed
        flattened_proofs faults =
      (postResponseOf ((try_into_post_proofs_bytes pLen proof_partitions flattened_proofs).bind
          fun bs => api.verify_post (PoStConfig.mk sector_size proof_partitions)
            (into_commitments flattened_comm_rs) (into_safe_challenge_seed challenge_seed)
            bs faults),
       ["verify_post: start", "verify_post: finish"]) := rfl

theorem verify_piece_inclusion_proof_eq (api : ProofsApi) (comm_d comm_p : Bytes)
    (piece_inclusion_proof : Bytes) (padded_and_aligned_piece_size sector_size : Nat) :
    verify_piece_inclusion_proof api comm_d comm_p piece_inclusion_proof
        padded_and_aligned_piece_size sector_size =
      (pipResponseOf (api.verify_piece_inclusion_proof piece_inclusion_proof comm_d comm_p
          padded_and_aligned_piece_size sector_size),
       ["verify_piece_inclusion_proof: start", "verify_piece_inclusion_proof: finish"]) := rfl

theorem generate_piece_commitment_eq (api : ProofsApi) (piece_path : String)
    (unpadded_piece_size : Nat) :
    generate_piece_commitment api piece_path unpadded_piece_size =
      (gpcResponseOf (api.generate_piece_commitment piece_path unpadded_piece_size), []) := rfl

/-! ## Properties of the chunking step -/

theorem intoProofVecsGo_join (chunk : Nat) (hc : 0 < chunk) :
    ∀ (fuel : Nat) (bs : Bytes), bs.length ≤ fuel → (intoProofVecsGo chunk fuel bs).flatten = bs := by
  intro fuel
  induction fuel with
  | zero =>
    intro bs hlen
    have hbs : bs = [] := List.length_eq_zero.mp (Nat.le_zero.mp hlen)
    subst hbs
    rfl
  | succ n ih =>
    intro bs hlen
    cases bs with
    | nil => rfl
    | cons b tl =>
      have hdrop : ((b :: tl).drop chunk).length ≤ n := by
        rw [List.length_drop]
        have h1 : (b :: tl).length ≤ n + 1 := hlen
        omega
      calc (intoProofVecsGo chunk (n + 1) (b :: tl)).flatten
          = (b :: tl).take chunk ++ (intoProofVecsGo chunk n ((b :: tl).drop chunk)).flatten := by
            rfl
        _ = (b :: tl).take chunk ++ (b :: tl).drop chunk := by rw [ih _ hdrop]
        _ = b :: tl := List.take_append_drop chunk (b :: tl)

theorem intoProofVecs_join (chunk : Nat) (bs : Bytes) (hc : 0 < chunk) :
    (intoProofVecs chunk bs).flatten = bs :=
  intoProofVecsGo_join chunk hc bs.length bs (Nat.le_refl _)

/-! ## Case lemmas for the response mappings -/

theorem sealResponseOf_status_iff (r : Except String Bool) :
    (sealResponseOf r).status_code = 0 ↔ (sealResponseOf r).error_msg = none := by
  cases r with
  | ok b => cases b <;> simp [sealResponseOf]
  | error e => simp [sealResponseOf]

theorem sealResponseOf_one_invalid (r : Except String Bool) :
    (sealResponseOf r).status_code = 1 → (sealResponseOf r).is_valid = false := by
  cases r with
  | ok b => cases b <;> simp [sealResponseOf]
  | error e => simp [sealResponseOf]

theorem postResponseOf_status_iff (r : Except String PoStOutput) :
    (postResponseOf r).status_code = 0 ↔ (postResponseOf r).error_msg = none := by
  cases r with
  | ok d => simp [postResponseOf]
  | error e => simp [postResponseOf]

theorem postResponseOf_one_invalid (r : Except String PoStOutput) :
    (postResponseOf r).status_code = 1 → (postResponseOf r).is_valid = false := by
  cases r with
  | ok d =>
    intro h
    simp [postResponseOf] at h
  | error e => simp [postResponseOf]

theorem pipResponseOf_status_iff (r : Except String Bool) :
    (pipResponseOf r).status_code = 0 ↔ (pipResponseOf r).error_msg = none := by
  cases r with
  | ok b => cases b <;> simp [pipResponseOf]
  | error e => simp [pipResponseOf]

theorem pipResponseOf_one_invalid (r : Except String Bool) :
    (pipResponseOf r).status_code = 1 → (pipResponseOf r).is_valid = false := by
  cases r with
  | ok b => cases b <;> simp [pipResponseOf]
  | error e => simp [pipResponseOf]

theorem pipResponseOf_one_iff_error (r : Except String Bool) :
    (pipResponseOf r).status_code = 1 ↔ ∃ e, r = Except.error e := by
  cases r with
  | ok b => cases b <;> simp [pipResponseOf]
  | error e => simp [pipResponseOf]

theorem gpcResponseOf_status_iff (r : Except String (Bytes × Nat)) :
    (gpcResponseOf r).status_code = 0 ↔ (gpcResponseOf r).error_msg = none := by
  cases r with
  | ok p => simp [gpcResponseOf]
  | error e => simp [gpcResponseOf]

/-! ## Concrete library oracles, used to evaluate the theorems on closed inputs -/

/-- A library whose every call fails with the message "boom". -/
def errApi : ProofsApi where
  verify_seal := fun _ _ _ _ _ _ _ => Except.error "boom"
  verify_post := fun _ _ _ _ _ => Except.error "boom"
  verify_piece_inclusion_proof := fun _ _ _ _ _ => Except.error "boom"
  generate_piece_commitment := fun _ _ => Except.error "boom"

/-- A library whose every call succeeds. -/
def okApi : ProofsApi where
  verify_seal := fun _ _ _ _ _ _ _ => Except.ok true
  verify_post := fun _ _ _ _ _ => Except.ok (PoStOutput.mk true)
  verify_piece_inclusion_proof := fun _ _ _ _ _ => Except.ok true
  generate_piece_commitment := fun _ _ => Except.ok (List.replicate 32 7, 128)

/-! ## The claims -/

/-- C1: For every exported dispatcher (verify_seal, verify_post,
verify_piece_inclusion_proof, generate_piece_commitment), for every input, the
returned response pointer is non-null — modelled here by each dispatcher being
a total function that always returns a response value — and the response's
status_code equals 0 if and only if its error_msg field is null/absent. -/
theorem claim_C1 (api : ProofsApi)
    (pLen sector_size proof_partitions padded_and_aligned_piece_size pip_sector_size
      unpadded_piece_size : Nat)
    (comm_r comm_d comm_r_star prover_id sector_id proof : Bytes)
    (flattened_comm_rs challenge_seed flattened_proofs : Bytes) (faults : List Nat)
    (pip_comm_d pip_comm_p piece_inclusion_proof : Bytes) (piece_path : String) :
    ((verify_seal api pLen sector_size comm_r comm_d comm_r_star prover_id sector_id
        proof).1.status_code = 0 ↔
      (verify_seal api pLen sector_size comm_r comm_d comm_r_star prover_id sector_id
        proof).1.error_msg = none)
    ∧ ((verify_post api pLen sector_size proof_partitions flattened_comm_rs challenge_seed
        flattened_proofs faults).1.status_code = 0 ↔
      (verify_post api pLen sector_size proof_partitions flattened_comm_rs challenge_seed
        flattened_proofs faults).1.error_msg = none)
    ∧ ((verify_piece_inclusion_proof api pip_comm_d pip_comm_p piece_inclusion_proof
        padded_and_aligned_piece_size pip_sector_size).1.status_code = 0 ↔
      (verify_piece_inclusion_proof api pip_comm_d pip_comm_p piece_inclusion_proof
        padded_and_aligned_piece_size pip_sector_size).1.error_msg = none)
    ∧ ((generate_piece_commitment api piece_path unpadded_piece_size).1.status_code = 0 ↔
      (generate_piece_commitment api piece_path unpadded_piece_size).1.error_msg = none) :=
  ⟨sealResponseOf_status_iff _, postResponseOf_status_iff _,
    pipResponseOf_status_iff _, gpcResponseOf_status_iff _⟩

/-- C2 (amended): For every valid sector-size/partition-count pair, decoding a
proof buffer succeeds exactly when the buffer's byte length is an exact
multiple of the expected proof unit size — for verify_seal the per-partition
proof size itself (the partition count being derived), for verify_post
proof_partitions times the per-partition proof size — and on success the
decoded bytes are exactly the input bytes, so the decoded byte count equals
the input length; for any other length it returns a decode error. -/
theorem claim_C2 (pLen p : Nat) (bs ps : Bytes) (hpl : 0 < pLen) (hp : 0 < p) :
    (try_into_porep_proof_bytes bs = Except.ok bs)
    ∧ ((∃ n, porep_proof_partitions_try_from_bytes pLen bs = Except.ok n) ↔
        bs.length % pLen = 0)
    ∧ ((∃ cs, try_into_post_proofs_bytes pLen p ps = Except.ok cs) ↔
        ps.length % (p * pLen) = 0)
    ∧ (∀ cs, try_into_post_proofs_bytes pLen p ps = Except.ok cs →
        cs.flatten = ps ∧ cs.flatten.length = ps.length) := by
  refine ⟨rfl, ?_, ?_, ?_⟩
  · by_cases h : bs.length % pLen = 0 <;>
      simp [porep_proof_partitions_try_from_bytes, h]
  · by_cases h : ps.length % (p * pLen) = 0 <;>
      simp [try_into_post_proofs_bytes, h]
  · intro cs hcs
    by_cases h : ps.length % (p * pLen) = 0
    · simp only [try_into_post_proofs_bytes, h, if_true] at hcs
      have hceq : intoProofVecs (p * pLen) ps = cs := by
        injection hcs
      subst hceq
      have hj := intoProofVecs_join (p * pLen) ps (Nat.mul_pos hp hpl)
      exact ⟨hj, by rw [hj]⟩
    · simp [try_into_post_proofs_bytes, h] at hcs

/-- Witness for C2 at pLen = 2, p = 1, a seal buffer of length 2 and a post
buffer of length 2. -/
theorem claim_C2_witness :
    (0 < 2 ∧ 0 < 1)
    ∧ ((∃ n, porep_proof_partitions_try_from_bytes 2 [7, 7] = Except.ok n) ↔
        ([7, 7] : Bytes).length % 2 = 0)
    ∧ (∀ cs, try_into_post_proofs_bytes 2 1 [5, 5] = Except.ok cs →
        cs.flatten = [5, 5] ∧ cs.flatten.length = ([5, 5] : Bytes).length) :=
  ⟨⟨by decide, by decide⟩,
    (claim_C2 2 1 [7, 7] [5, 5] (by decide) (by decide)).2.1,
    (claim_C2 2 1 [7, 7] [5, 5] (by decide) (by decide)).2.2.2⟩

/-- Counterexample to C2 as stated: with per-partition proof size 2 and
partition count 2, the post buffer [0, 0] has length 2, an exact multiple of
the per-partition proof size, yet try_into_post_proofs_bytes fails with a
decode error (the divisor is proof_partitions × the per-partition size = 4). -/
theorem claim_C2_counterexample :
    ([0, 0] : Bytes).length % 2 = 0
    ∧ try_into_post_proofs_bytes 2 2 [0, 0] = Except.error (postDecodeErrMsg 2 2) := by
  constructor
  · decide
  · rfl

/-- C3: For every call to verify_seal with a proof buffer whose length is not
divisible by the configured per-partition proof size, the returned response
has status_code = 1, an error_msg containing the decoding-failure description,
and is_valid = false. -/
theorem claim_C3 (api : ProofsApi) (pLen sector_size : Nat)
    (comm_r comm_d comm_r_star prover_id sector_id proof : Bytes)
    (h : proof.length % pLen ≠ 0) :
    (verify_seal api pLen sector_size comm_r comm_d comm_r_star prover_id sector_id
        proof).1 =
      { status_code := 1, error_msg := some (porepDecodeErrMsg proof.length),
        is_valid := false } := by
  rw [verify_seal_eq]
  simp [porep_proof_partitions_try_from_bytes, h, Except.bind, sealResponseOf]

/-- Witness for C3: a one-byte proof buffer with per-partition proof size 2. -/
theorem claim_C3_witness :
    ([0] : Bytes).length % 2 ≠ 0
    ∧ (verify_seal okApi 2 1024 [] [] [] [] [] [0]).1 =
      { status_code := 1, error_msg := some (porepDecodeErrMsg 1), is_valid := false } :=
  ⟨by decide, claim_C3 okApi 2 1024 [] [] [] [] [] [0] (by decide)⟩

/-- C4: For every call to verify_seal or verify_post in which proof-byte
decoding fails, the underlying proof-library verification function is never
invoked — modelled by the call's outcome being identical for any two
libraries — and the decode error is converted uniformly into a response with
status_code = 1 plus the formatted decode message. -/
theorem claim_C4 (api api2 : ProofsApi) (pLen sector_size proof_partitions : Nat)
    (comm_r comm_d comm_r_star prover_id sector_id proof : Bytes)
    (flattened_comm_rs challenge_seed flattened_proofs : Bytes) (faults : List Nat) :
    (proof.length % pLen ≠ 0 →
      verify_seal api pLen sector_size comm_r comm_d comm_r_star prover_id sector_id proof =
        verify_seal api2 pLen sector_size comm_r comm_d comm_r_star prover_id sector_id proof
      ∧ (verify_seal api pLen sector_size comm_r comm_d comm_r_star prover_id sector_id
          proof).1.status_code = 1
      ∧ (verify_seal api pLen sector_size comm_r comm_d comm_r_star prover_id sector_id
          proof).1.error_msg = some (porepDecodeErrMsg proof.length))
    ∧ (flattened_proofs.length % (proof_partitions * pLen) ≠ 0 →
      verify_post api pLen sector_size proof_partitions flattened_comm_rs challenge_seed
          flattened_proofs faults =
        verify_post api2 pLen sector_size proof_partitions flattened_comm_rs challenge_seed
          flattened_proofs faults
      ∧ (verify_post api pLen sector_size proof_partitions flattened_comm_rs challenge_seed
          flattened_proofs faults).1.status_code = 1
      ∧ (verify_post api pLen sector_size proof_partitions flattened_comm_rs challenge_seed
          flattened_proofs faults).1.error_msg =
          some (postDecodeErrMsg flattened_proofs.length proof_partitions)) := by
  constructor
  · intro h
    rw [verify_seal_eq, verify_seal_eq]
    simp [porep_proof_partitions_try_from_bytes, h, Except.bind, sealResponseOf]
  · intro h
    rw [verify_post_eq, verify_post_eq]
    simp [try_into_post_proofs_bytes, h, Except.bind, postResponseOf]

/-- Witness for C4: mis-sized buffers handed to two different libraries (one
that always fails, one that always succeeds) produce identical responses. -/
theorem claim_C4_witness :
    ([0] : Bytes).length % 2 ≠ 0
    ∧ ([0] : Bytes).length % (1 * 2) ≠ 0
    ∧ verify_seal errApi 2 1024 [] [] [] [] [] [0] =
        verify_seal okApi 2 1024 [] [] [] [] [] [0]
    ∧ verify_post errApi 2 1024 1 [] [] [0] [] = verify_post okApi 2 1024 1 [] [] [0] [] :=
  ⟨by decide, by decide,
    ((claim_C4 errApi okApi 2 1024 1 [] [] [] [] [] [0] [] [] [0] []).1 (by decide)).1,
    ((claim_C4 errApi okApi 2 1024 1 [] [] [] [] [] [0] [] [] [0] []).2 (by decide)).1⟩

/-- C5 (amended): get_max_user_bytes_per_staged_sector is a pure deterministic
function of sector_size (identical input always yields identical output), and
for every sector_size of at least 128 bytes (one padding unit of the
underlying encoding) its output is strictly less than sector_size. -/
theorem claim_C5 :
    (∀ s1 s2 : Nat, s1 = s2 →
      get_max_user_bytes_per_staged_sector s1 = get_max_user_bytes_per_staged_sector s2)
    ∧ (∀ sector_size : Nat, 128 ≤ sector_size →
      get_max_user_bytes_per_staged_sector sector_size < sector_size) := by
  constructor
  · intro s1 s2 h
    rw [h]
  · intro s h
    have h0 : 0 < s := Nat.lt_of_lt_of_le (by norm_num) h
    have h1 : 0 < s / 128 := Nat.div_pos h (by norm_num)
    exact Nat.sub_lt h0 h1

/-- Witness for C5 at sector_size = 1024. -/
theorem claim_C5_witness :
    (get_max_user_bytes_per_staged_sector 1024 = get_max_user_bytes_per_staged_sector 1024)
    ∧ 128 ≤ 1024 ∧ get_max_user_bytes_per_staged_sector 1024 < 1024 :=
  ⟨claim_C5.1 1024 1024 rfl, by decide, claim_C5.2 1024 (by decide)⟩

/-- Counterexample to C5 as stated: at sector_size = 127 the output equals
127, so it is not strictly less than sector_size (and at sector_size = 0 no
function into the natural numbers could be strictly below its input). -/
theorem claim_C5_counterexample :
    get_max_user_bytes_per_staged_sector 127 = 127
    ∧ ¬ (get_max_user_bytes_per_staged_sector 127 < 127)
    ∧ ¬ (get_max_user_bytes_per_staged_sector 0 < 0) := by
  refine ⟨by decide, by decide, ?_⟩
  exact Nat.not_lt_zero _

/-- C6: verify_seal computes its proof-partition count by deriving it from the
total proof byte length (its embedding takes no partition-count parameter and
passes length / pLen to the library), whereas verify_post constructs its
configuration from the caller-supplied proof_partitions argument and uses that
same value to decode the flattened proof bytes (unit size
proof_partitions × pLen). -/
theorem claim_C6 (api : ProofsApi) (pLen sector_size proof_partitions : Nat)
    (comm_r comm_d comm_r_star prover_id sector_id proof : Bytes)
    (flattened_comm_rs challenge_seed flattened_proofs : Bytes) (faults : List Nat) :
    (proof.length % pLen = 0 →
      verify_seal api pLen sector_size comm_r comm_d comm_r_star prover_id sector_id proof =
        (sealResponseOf (api.verify_seal (PoRepConfig.mk sector_size (proof.length / pLen))
            comm_r comm_d comm_r_star prover_id sector_id proof),
         ["verify_seal: start", "verify_seal: finish"]))
    ∧ (flattened_proofs.length % (proof_partitions * pLen) = 0 →
      verify_post api pLen sector_size proof_partitions flattened_comm_rs challenge_seed
          flattened_proofs faults =
        (postResponseOf (api.verify_post (PoStConfig.mk sector_size proof_partitions)
            (into_commitments flattened_comm_rs) (into_safe_challenge_seed challenge_seed)
            (intoProofVecs (proof_partitions * pLen) flattened_proofs) faults),
         ["verify_post: start", "verify_post: finish"])) := by
  constructor
  · intro h
    rw [verify_seal_eq]
    simp [porep_proof_partitions_try_from_bytes, h, Except.bind]
  · intro h
    rw [verify_post_eq]
    simp [try_into_post_proofs_bytes, h, Except.bind]

/-- Witness for C6: a two-byte proof with per-partition size 2 derives one
seal partition; a two-byte flattened post proof with proof_partitions = 1 is
decoded in units of 1 × 2 bytes. -/
theorem claim_C6_witness :
    ([9, 9] : Bytes).length % 2 = 0
    ∧ verify_seal okApi 2 1024 [] [] [] [] [] [9, 9] =
        (sealResponseOf (okApi.verify_seal (PoRepConfig.mk 1024 1) [] [] [] [] [] [9, 9]),
         ["verify_seal: start", "verify_seal: finish"])
    ∧ verify_post okApi 2 1024 1 [] [] [9, 9] [] =
        (postResponseOf (okApi.verify_post (PoStConfig.mk 1024 1) (into_commitments [])
            (into_safe_challenge_seed []) (intoProofVecs (1 * 2) [9, 9]) []),
         ["verify_post: start", "verify_post: finish"]) :=
  ⟨by decide,
    (claim_C6 okApi 2 1024 1 [] [] [] [] [] [9, 9] [] [] [9, 9] []).1 (by decide),
    (claim_C6 okApi 2 1024 1 [] [] [] [] [] [9, 9] [] [] [9, 9] []).2 (by decide)⟩

/-- C7: verify_piece_inclusion_proof performs no wrapper-level validation of
the proof bytes: for every input its outcome is exactly the library's verdict
on the input byte slice passed through unchanged (no partition-multiple length
check exists on this path), so its status_code is 1 exactly when the library
call returned an error. -/
theorem claim_C7 (api : ProofsApi) (comm_d comm_p piece_inclusion_proof : Bytes)
    (padded_and_aligned_piece_size sector_size : Nat) :
    verify_piece_inclusion_proof api comm_d comm_p piece_inclusion_proof
        padded_and_aligned_piece_size sector_size =
      (pipResponseOf (api.verify_piece_inclusion_proof piece_inclusion_proof comm_d comm_p
          padded_and_aligned_piece_size sector_size),
       ["verify_piece_inclusion_proof: start", "verify_piece_inclusion_proof: finish"])
    ∧ ((verify_piece_inclusion_proof api comm_d comm_p piece_inclusion_proof
          padded_and_aligned_piece_size sector_size).1.status_code = 1 ↔
        ∃ e, api.verify_piece_inclusion_proof piece_inclusion_proof comm_d comm_p
          padded_and_aligned_piece_size sector_size = Except.error e) :=
  ⟨rfl, pipResponseOf_one_iff_error _⟩

/-- C8: For every call to generate_piece_commitment: if the library call
succeeds, the response has status_code = 0 with comm_p set to the returned
commitment bytes and padded_and_aligned_piece_size set to the returned padded
size; if it fails, the response has status_code = 1 with the formatted error
message; and this operation emits no log entries. -/
theorem claim_C8 (api : ProofsApi) (piece_path : String) (unpadded_piece_size : Nat) :
    (generate_piece_commitment api piece_path unpadded_piece_size).2 = []
    ∧ (∀ cp padded,
        api.generate_piece_commitment piece_path unpadded_piece_size = Except.ok (cp, padded) →
        (generate_piece_commitment api piece_path unpadded_piece_size).1 =
          { status_code := 0, error_msg := none, comm_p := cp,
            padded_and_aligned_piece_size := padded })
    ∧ (∀ e, api.generate_piece_commitment piece_path unpadded_piece_size = Except.error e →
        (generate_piece_commitment api piece_path unpadded_piece_size).1 =
          { status_code := 1, error_msg := some e, comm_p := List.replicate 32 0,
            padded_and_aligned_piece_size := 0 }) := by
  refine ⟨rfl, ?_, ?_⟩
  · intro cp padded h
    rw [generate_piece_commitment_eq]
    simp [h, gpcResponseOf]
  · intro e h
    rw [generate_piece_commitment_eq]
    simp [h, gpcResponseOf]

/-- Witness for C8: a library that returns the commitment
List.replicate 32 7 with padded size 128. -/
theorem claim_C8_witness :
    okApi.generate_piece_commitment "piece" 64 = Except.ok (List.replicate 32 7, 128)
    ∧ (generate_piece_commitment okApi "piece" 64).1 =
      { status_code := 0, error_msg := none, comm_p := List.replicate 32 7,
        padded_and_aligned_piece_size := 128 } :=
  ⟨rfl, (claim_C8 okApi "piece" 64).2.1 (List.replicate 32 7) 128 rfl⟩

/-- C9: For every call to any of verify_seal, verify_post, or
verify_piece_inclusion_proof and every input, whenever the returned response
has status_code = 1, its is_valid field is false. -/
theorem claim_C9 (api : ProofsApi)
    (pLen sector_size proof_partitions padded_and_aligned_piece_size pip_sector_size : Nat)
    (comm_r comm_d comm_r_star prover_id sector_id proof : Bytes)
    (flattened_comm_rs challenge_seed flattened_proofs : Bytes) (faults : List Nat)
    (pip_comm_d pip_comm_p piece_inclusion_proof : Bytes) :
    ((verify_seal api pLen sector_size comm_r comm_d comm_r_star prover_id sector_id
        proof).1.status_code = 1 →
      (verify_seal api pLen sector_size comm_r comm_d comm_r_star prover_id sector_id
        proof).1.is_valid = false)
    ∧ ((verify_post api pLen sector_size proof_partitions flattened_comm_rs challenge_seed
        flattened_proofs faults).1.status_code = 1 →
      (verify_post api pLen sector_size proof_partitions flattened_comm_rs challenge_seed
        flattened_proofs faults).1.is_valid = false)
    ∧ ((verify_piece_inclusion_proof api pip_comm_d pip_comm_p piece_inclusion_proof
        padded_and_aligned_piece_size pip_sector_size).1.status_code = 1 →
      (verify_piece_inclusion_proof api pip_comm_d pip_comm_p piece_inclusion_proof
        padded_and_aligned_piece_size pip_sector_size).1.is_valid = false) :=
  ⟨sealResponseOf_one_invalid _, postResponseOf_one_invalid _, pipResponseOf_one_invalid _⟩

/-- Witness for C9: a library whose calls all fail yields error responses with
is_valid = false on all three verification paths. -/
theorem claim_C9_witness :
    (verify_seal errApi 2 1024 [] [] [] [] [] []).1.is_valid = false
    ∧ (verify_post errApi 2 1024 1 [] [] [] []).1.is_valid = false
    ∧ (verify_piece_inclusion_proof errApi [] [] [3] 64 1024).1.is_valid = false :=
  ⟨(claim_C9 errApi 2 1024 1 64 1024 [] [] [] [] [] [] [] [] [] [] [] [] [3]).1 (by decide),
    (claim_C9 errApi 2 1024 1 64 1024 [] [] [] [] [] [] [] [] [] [] [] [] [3]).2.1 (by decide),
    (claim_C9 errApi 2 1024 1 64 1024 [] [] [] [] [] [] [] [] [] [] [] [] [3]).2.2 (by decide)⟩

/-- C10: For every call to generate_piece_commitment that returns
status_code = 1, the response's comm_p field is left at its all-zero default,
its padded_and_aligned_piece_size field is left at 0, and only error_msg (set
to the formatted message) and status_code are modified on the error path. -/
theorem claim_C10 (api : ProofsApi) (piece_path : String) (unpadded_piece_size : Nat)
    (h : (generate_piece_commitment api piece_path unpadded_piece_size).1.status_code = 1) :
    (generate_piece_commitment api piece_path unpadded_piece_size).1.comm_p =
      List.replicate 32 0
    ∧ (generate_piece_commitment api piece_path unpadded_piece_size).1.padded_and_aligned_piece_size = 0
    ∧ ∃ e, (generate_piece_commitment api piece_path unpadded_piece_size).1.error_msg =
        some e := by
  rw [generate_piece_commitment_eq] at h ⊢
  cases hr : api.generate_piece_commitment piece_path unpadded_piece_size with
  | ok p =>
    rw [hr] at h
    simp [gpcResponseOf] at h
  | error e =>
    simp [gpcResponseOf]

/-- Witness for C10: a library whose generate_piece_commitment call fails. -/
theorem claim_C10_witness :
    (generate_piece_commitment errApi "piece" 64).1.status_code = 1
    ∧ (generate_piece_commitment errApi "piece" 64).1.comm_p = List.replicate 32 0
    ∧ (generate_piece_commitment errApi "piece" 64).1.padded_and_aligned_piece_size = 0
    ∧ ∃ e, (generate_piece_commitment errApi "piece" 64).1.error_msg = some e :=
  ⟨by decide, claim_C10 errApi "piece" 64 (by decide)⟩

end FilecoinFFI
